import Mathlib

/-!
Verification development for the ESS (energy storage system) battery control
and scheduling engine of the wind_prediction repository.

The repository ships the React dashboard (ESSDashboard / EnhancedDashboard)
and the README documenting the ESS algorithms; the backend module
`ess_controller.py` named by the README's system layout is not part of the
checked-in sources.  The battery model, state machine, rate-adaptation
policy, schedule builder and day simulator below are therefore modelled from
the specification (spec.md sections 3, 4.1-4.4 and the README's ESS
algorithm section), using exact rational arithmetic.  Rational constants are
written with `mkRat` so that concrete instances evaluate by kernel
reduction; the theorems relate them to the decimal values named by the
specification.  The dashboard request builders (startBatteryChargingBody,
runEssSimulationBody) are embedded directly from the frontend source in
src/unnamed/part_000.
-/

/-- Modelled from the spec: operation phase of the battery state machine
(spec section 3, field `phase`). -/
inductive Phase
  | IDLE
  | CHARGING_CC
  | CHARGING_CV
  | DISCHARGING
  | REST
deriving DecidableEq, Repr

/-- Modelled from the spec: direction argument of `apply_current`
(charge = +, discharge = -, spec section 4.1). -/
inductive Direction
  | charge
  | discharge
deriving DecidableEq, Repr

/-- Modelled from the spec: error taxonomy of spec section 7.
`InvalidTransition` reports the current phase. -/
inductive EssError
  | InvalidInput
  | InvalidTransition (current : Phase)
  | ConfigurationError
deriving DecidableEq, Repr

/-- Sign applied to the SOC integration for each direction
(spec section 4.1: charge = +, discharge = -). -/
def dirSign : Direction → ℚ
  | .charge => 1
  | .discharge => -1

/-- Modelled from the spec: monotonic voltage-SOC lookup (spec section 3
treats it as a pluggable monotonic interpolation).  Chosen affine so that
`soc = 100` corresponds to the 4.2 V charge cutoff, matching the README's
"SOC >= 100% (OCV >= 4.2V)" equivalence. -/
def cell_voltage_of_soc (soc : ℚ) : ℚ := 3 + (mkRat 12 1000) * soc

/-- Modelled from the spec: `BatteryState` record of spec section 3.
`rest_elapsed_minutes` is meaningful only while `phase = REST`;
`series_count` and `capacity_ah` are immutable configuration. -/
structure BatteryState where
  soc : ℚ
  cell_voltage : ℚ
  pack_voltage : ℚ
  capacity_ah : ℚ
  series_count : ℚ
  temperature : ℚ
  phase : Phase
  rest_elapsed_minutes : ℚ
  charge_current : ℚ
  discharge_current : ℚ
deriving DecidableEq, Repr

/-- Helper of `apply_current`: write the new SOC, recompute the cell and
pack voltages from it, and record the applied set-point current in the
field matching the direction (spec section 4.1). -/
def set_soc (b : BatteryState) (newSoc current_amps : ℚ) (dir : Direction) : BatteryState :=
  { b with
    soc := newSoc
    cell_voltage := cell_voltage_of_soc newSoc
    pack_voltage := cell_voltage_of_soc newSoc * b.series_count
    charge_current :=
      (match dir with
       | .charge => current_amps
       | .discharge => b.charge_current)
    discharge_current :=
      (match dir with
       | .discharge => current_amps
       | .charge => b.discharge_current) }

@[simp]
theorem set_soc_soc (b : BatteryState) (x c : ℚ) (dir : Direction) :
    (set_soc b x c dir).soc = x := rfl

/-- Modelled from the spec: nominal base charge rate, 0.1 C
(spec section 4.2). -/
def base_rate_charge : ℚ := mkRat 1 10

/-- Modelled from the spec: nominal base discharge rate, 0.0833 C
(spec section 4.2). -/
def base_rate_discharge : ℚ := mkRat 833 10000

/-- Modelled from the spec: reference production threshold of the rate
adaptation policy, 25804.8 Wh (spec section 4.2, README C-rate section). -/
def P_ref : ℚ := mkRat 129024 5

/-- Modelled from the spec: tunable coefficient of the rate adaptation
formulas, 6.75e-9 (spec section 4.2, README C-rate section). -/
def k_coeff : ℚ := mkRat 27 4000000000

/-- Modelled from the spec: the CC charge cutoff voltage, 4.2 V
(spec section 4.2, README step 1 cutoff). -/
def charge_cutoff_voltage : ℚ := mkRat 21 5

/-- Modelled from the spec: the Rate Adaptation Policy (spec section 4.2).
Given harvested power `A`, returns `(rate_charge, rate_discharge)`:
for `A > P_ref` the throttled/boosted formulas, otherwise the nominal
base rates unmodified. -/
def adjust_c_rate (A : ℚ) : ℚ × ℚ :=
  if P_ref < A then
    (base_rate_charge * (base_rate_charge / (k_coeff * A + base_rate_charge)),
     base_rate_discharge * ((k_coeff * A + base_rate_discharge) / base_rate_discharge))
  else
    (base_rate_charge, base_rate_discharge)

/-- Modelled from the spec: `apply_current` of the Battery Model (spec
section 4.1).  Integrates `current x duration` into a SOC change, clips at
the `[0,100]` boundary truncating the applied duration at the
boundary-crossing instant, and recomputes voltages.  Fails with
`InvalidInput` on non-positive current or duration (fail-fast before any
write) and with `ConfigurationError` on a non-positive capacity. -/
def apply_current (b : BatteryState) (current_amps duration_minutes : ℚ)
    (direction : Direction) : Except EssError (BatteryState × ℚ) :=
  if current_amps ≤ 0 ∨ duration_minutes ≤ 0 then .error .InvalidInput
  else if b.capacity_ah ≤ 0 then .error .ConfigurationError
  else if 100 < b.soc + dirSign direction * (current_amps * duration_minutes / 60 / b.capacity_ah * 100) then
    .ok (set_soc b 100 current_amps direction,
      (100 - b.soc) * duration_minutes /
        (dirSign direction * (current_amps * duration_minutes / 60 / b.capacity_ah * 100)))
  else if b.soc + dirSign direction * (current_amps * duration_minutes / 60 / b.capacity_ah * 100) < 0 then
    .ok (set_soc b 0 current_amps direction,
      (0 - b.soc) * duration_minutes /
        (dirSign direction * (current_amps * duration_minutes / 60 / b.capacity_ah * 100)))
  else
    .ok (set_soc b
      (b.soc + dirSign direction * (current_amps * duration_minutes / 60 / b.capacity_ah * 100))
      current_amps direction, duration_minutes)

/-- Run wrapper for `apply_current` making the fail-fast contract explicit:
on failure the battery state is returned unchanged (spec section 7, no
partial mutation on failure). -/
def apply_current_run (b : BatteryState) (current_amps duration_minutes : ℚ)
    (direction : Direction) : BatteryState × Except EssError ℚ :=
  match apply_current b current_amps duration_minutes direction with
  | .ok (b', applied) => (b', .ok applied)
  | .error e => (b, .error e)

/-- Modelled from the spec: `start_charge` of the state machine (spec
sections 4.2 and 6).  From IDLE it enters CHARGING_CC with the set-point
taken from the Rate Adaptation Policy and returns the applied c-rate; from
any other phase it fails with `InvalidTransition` reporting the current
phase. -/
def start_charge (b : BatteryState) (power_production : ℚ) :
    Except EssError (BatteryState × ℚ) :=
  if b.phase = .IDLE then
    .ok ({ b with
            phase := .CHARGING_CC
            charge_current := (adjust_c_rate power_production).1 * b.capacity_ah },
         (adjust_c_rate power_production).1)
  else .error (.InvalidTransition b.phase)

set_option linter.unusedVariables false in
/-- Modelled from the spec: `start_discharge` of the state machine (spec
sections 4.2 and 6).  From IDLE it enters DISCHARGING at the nominal base
discharge rate; from any other phase it fails with `InvalidTransition`
reporting the current phase.  The nighttime flag selects the streetlight
load profile and does not affect the transition rule. -/
def start_discharge (b : BatteryState) (is_nighttime : Bool) :
    Except EssError (BatteryState × ℚ) :=
  if b.phase = .IDLE then
    .ok ({ b with
            phase := .DISCHARGING
            discharge_current := base_rate_discharge * b.capacity_ah },
         base_rate_discharge)
  else .error (.InvalidTransition b.phase)

/-- Run wrapper for `start_charge`: on failure the battery state is
returned unchanged. -/
def start_charge_run (b : BatteryState) (power_production : ℚ) :
    BatteryState × Except EssError ℚ :=
  match start_charge b power_production with
  | .ok (b', r) => (b', .ok r)
  | .error e => (b, .error e)

/-- Run wrapper for `start_discharge`: on failure the battery state is
returned unchanged. -/
def start_discharge_run (b : BatteryState) (is_nighttime : Bool) :
    BatteryState × Except EssError ℚ :=
  match start_discharge b is_nighttime with
  | .ok (b', r) => (b', .ok r)
  | .error e => (b, .error e)

/-- Modelled from the spec: the CV-phase taper cutoff, 0.02 C expressed in
amps for this pack (spec section 4.2). -/
def cv_current_cutoff (b : BatteryState) : ℚ := (mkRat 2 100) * b.capacity_ah

/-- Modelled from the spec: configured discharge floor for the
DISCHARGING -> REST cutoff (spec section 4.2, "configured floor"). -/
def soc_floor : ℚ := 0

/-- Modelled from the spec: the cutoff evaluation of the charge/discharge
state machine (spec section 4.2 transition table), computing the phase
after a step from the state observed after the applied step. -/
def step_phase (b : BatteryState) : Phase :=
  match b.phase with
  | .IDLE => .IDLE
  | .CHARGING_CC =>
      if charge_cutoff_voltage ≤ b.cell_voltage then .CHARGING_CV else .CHARGING_CC
  | .CHARGING_CV =>
      if b.charge_current ≤ cv_current_cutoff b ∨ (100 : ℚ) ≤ b.soc then .REST
      else .CHARGING_CV
  | .DISCHARGING =>
      if b.soc ≤ soc_floor then .REST else .DISCHARGING
  | .REST =>
      if (120 : ℚ) ≤ b.rest_elapsed_minutes then .IDLE else .REST

/-- A concrete battery in its default configuration, used by the witness
statements. -/
def defaultBattery : BatteryState :=
  { soc := 50
    cell_voltage := mkRat 18 5
    pack_voltage := mkRat 126 5
    capacity_ah := 2
    series_count := 7
    temperature := 298
    phase := .IDLE
    rest_elapsed_minutes := 0
    charge_current := 0
    discharge_current := 0 }

/-- A concrete battery mid-charge (phase CHARGING_CC) at the 4.2 V cutoff,
used by witness statements. -/
def ccBattery : BatteryState :=
  { defaultBattery with phase := .CHARGING_CC, cell_voltage := mkRat 21 5 }

/-- A concrete battery resting for 119 minutes, used by witness
statements. -/
def restBattery119 : BatteryState :=
  { defaultBattery with phase := .REST, rest_elapsed_minutes := 119 }

/-- A concrete battery at SOC 99.5 with a 50 Ah pack, for which one hour
of 1 A charge overshoots 100 (spec section 8 clipping scenario). -/
def nearFullBattery : BatteryState :=
  { defaultBattery with soc := mkRat 199 2, capacity_ah := 50 }

/-- C2: the Rate Adaptation Policy returns, for `A > P_ref`, the throttled
charge rate `0.1 * (0.1 / (k*A + 0.1))` and boosted discharge rate
`0.0833 * ((k*A + 0.0833) / 0.0833)` with `P_ref = 25804.8` and
`k = 6.75e-9`, and for `A <= P_ref` the nominal base rates
`(0.1, 0.0833)` unmodified. -/
theorem adjust_c_rate_spec (A : ℚ) :
    P_ref = 25804.8 ∧ k_coeff = 6.75e-9 ∧
    (P_ref < A →
      adjust_c_rate A =
        (0.1 * (0.1 / (k_coeff * A + 0.1)),
         0.0833 * ((k_coeff * A + 0.0833) / 0.0833))) ∧
    (A ≤ P_ref → adjust_c_rate A = (0.1, 0.0833)) := by
  have hc : base_rate_charge = (0.1 : ℚ) := by norm_num [base_rate_charge]
  have hd : base_rate_discharge = (0.0833 : ℚ) := by norm_num [base_rate_discharge]
  refine ⟨by norm_num [P_ref], by norm_num [k_coeff], ?_, ?_⟩
  · intro h
    simp only [adjust_c_rate, if_pos h, hc, hd]
  · intro h
    simp only [adjust_c_rate, if_neg (not_lt.mpr h), hc, hd]

/-- Witness for C2: at `A = 30000 > P_ref` the formulas apply, and at
`A = 1000 <= P_ref` the nominal base rates are returned. -/
theorem adjust_c_rate_spec_witness :
    adjust_c_rate 30000 =
      (0.1 * (0.1 / (k_coeff * 30000 + 0.1)),
       0.0833 * ((k_coeff * 30000 + 0.0833) / 0.0833)) ∧
    adjust_c_rate 1000 = (0.1, 0.0833) :=
  ⟨(adjust_c_rate_spec 30000).2.2.1 (by decide),
   (adjust_c_rate_spec 1000).2.2.2 (by decide)⟩

/-- C4: the step relation enters CHARGING_CV exactly by the
CHARGING_CC -> CHARGING_CV transition, which fires if and only if the
phase is CHARGING_CC and the cell voltage observed after the step is at
least 4.2 V; no other phase ever takes it. -/
theorem step_cc_to_cv (b : BatteryState) :
    charge_cutoff_voltage = (4.2 : ℚ) ∧
    ((step_phase b = .CHARGING_CV ∧ b.phase ≠ .CHARGING_CV) ↔
      (b.phase = .CHARGING_CC ∧ charge_cutoff_voltage ≤ b.cell_voltage)) := by
  refine ⟨by norm_num [charge_cutoff_voltage], ?_⟩
  cases hb : b.phase <;> simp [step_phase, hb]
  all_goals split_ifs with h <;> simp [h]

/-- Witness for C4: a CHARGING_CC battery at exactly 4.2 V steps into
CHARGING_CV. -/
theorem step_cc_to_cv_witness :
    step_phase ccBattery = .CHARGING_CV ∧ ccBattery.phase ≠ .CHARGING_CV :=
  (step_cc_to_cv ccBattery).2.mpr ⟨rfl, by decide⟩

/-- C5: the step relation leaves REST for IDLE exactly when
`rest_elapsed_minutes >= 120`; at 119 minutes the phase stays REST; and
the REST dwell decision depends only on the elapsed rest time, not on
which cycle preceded it. -/
theorem step_rest_dwell (b b' : BatteryState) :
    ((step_phase b = .IDLE ∧ b.phase ≠ .IDLE) ↔
      (b.phase = .REST ∧ (120 : ℚ) ≤ b.rest_elapsed_minutes)) ∧
    (b.phase = .REST → b.rest_elapsed_minutes = 119 → step_phase b = .REST) ∧
    (b.phase = .REST → b'.phase = .REST →
      b.rest_elapsed_minutes = b'.rest_elapsed_minutes →
      step_phase b = step_phase b') := by
  refine ⟨?_, ?_, ?_⟩
  · cases hb : b.phase <;> simp [step_phase, hb]
    all_goals split_ifs with h <;> simp [h]
  · intro h he
    have : ¬((120 : ℚ) ≤ b.rest_elapsed_minutes) := by rw [he]; norm_num
    simp [step_phase, h, this]
  · intro h h' he
    simp [step_phase, h, h', he]

/-- Witness for C5: a battery resting for 119 minutes stays in REST after
the step. -/
theorem step_rest_dwell_witness : step_phase restBattery119 = .REST :=
  (step_rest_dwell restBattery119 restBattery119).2.1 rfl rfl

/-- The battery reached by a successful `start_charge` from the default
(IDLE) battery at production 1000 Wh, used by witness statements. -/
def chargedOnceBattery : BatteryState :=
  { defaultBattery with
      phase := .CHARGING_CC
      charge_current := (adjust_c_rate 1000).1 * defaultBattery.capacity_ah }

/-- C3: from any non-IDLE phase, `start_charge` and `start_discharge` are
rejected with `InvalidTransition` reporting the current phase and leave
the battery state unchanged; in particular, after a successful
`start_charge` (which moves the phase to CHARGING_CC), a second
`start_charge` with no intervening transition is rejected with
`InvalidTransition`. -/
theorem start_non_idle_rejected (b b0 b1 : BatteryState) (p p0 q r : ℚ)
    (n : Bool) (h : b.phase ≠ .IDLE) :
    start_charge_run b p = (b, .error (.InvalidTransition b.phase)) ∧
    start_discharge_run b n = (b, .error (.InvalidTransition b.phase)) ∧
    (b0.phase = .IDLE → start_charge b0 p0 = .ok (b1, r) →
      start_charge_run b1 q = (b1, .error (.InvalidTransition .CHARGING_CC))) := by
  refine ⟨?_, ?_, ?_⟩
  · simp [start_charge_run, start_charge, h]
  · simp [start_discharge_run, start_discharge, h]
  · intro h0 hok
    rw [start_charge, if_pos h0] at hok
    have hb1 : b1 = { b0 with
        phase := .CHARGING_CC
        charge_current := (adjust_c_rate p0).1 * b0.capacity_ah } := by
      cases hok
      rfl
    have hphase : b1.phase = .CHARGING_CC := by rw [hb1]
    simp [start_charge_run, start_charge, hphase]

/-- Witness for C3: a CHARGING_CC battery rejects both intents, and the
battery reached by a first `start_charge` from IDLE rejects a second
`start_charge`. -/
theorem start_non_idle_rejected_witness :
    start_charge_run ccBattery 1000 =
      (ccBattery, .error (.InvalidTransition ccBattery.phase)) ∧
    start_discharge_run ccBattery true =
      (ccBattery, .error (.InvalidTransition ccBattery.phase)) ∧
    (defaultBattery.phase = .IDLE →
      start_charge defaultBattery 1000 = .ok (chargedOnceBattery, (adjust_c_rate 1000).1) →
      start_charge_run chargedOnceBattery 1000 =
        (chargedOnceBattery, .error (.InvalidTransition .CHARGING_CC))) :=
  start_non_idle_rejected ccBattery defaultBattery chargedOnceBattery
    1000 1000 1000 ((adjust_c_rate 1000).1) true (by decide)

/-- C6: `apply_current` with non-positive current or non-positive duration
fails with `InvalidInput`, and the failed call leaves the battery state
(every field) unchanged. -/
theorem apply_current_invalid_input (b : BatteryState)
    (current_amps duration_minutes : ℚ) (dir : Direction)
    (h : current_amps ≤ 0 ∨ duration_minutes ≤ 0) :
    apply_current_run b current_amps duration_minutes dir =
      (b, .error .InvalidInput) := by
  simp [apply_current_run, apply_current, if_pos h]

/-- Witness for C6: a zero-current request fails with `InvalidInput` and
returns the default battery unchanged. -/
theorem apply_current_invalid_input_witness :
    apply_current_run defaultBattery 0 10 .charge =
      (defaultBattery, .error .InvalidInput) :=
  apply_current_invalid_input defaultBattery 0 10 .charge (Or.inl (by decide))

/-- C1: for every valid `apply_current` call (positive current and
duration, positive capacity, SOC within bounds), the resulting SOC stays
within `[0,100]`; and whenever the unclipped integration
`soc + sign(direction) * current * duration / 60 / capacity * 100` would
leave `[0,100]`, the returned applied duration is strictly less than the
requested one and the resulting SOC is exactly the boundary hit. -/
theorem apply_current_soc_bounds (b : BatteryState)
    (current_amps duration_minutes : ℚ) (dir : Direction)
    (hc : 0 < current_amps) (hd : 0 < duration_minutes)
    (hcap : 0 < b.capacity_ah) (hs0 : 0 ≤ b.soc) (hs1 : b.soc ≤ 100) :
    ∃ b' applied,
      apply_current b current_amps duration_minutes dir = .ok (b', applied) ∧
      0 ≤ b'.soc ∧ b'.soc ≤ 100 ∧
      (100 < b.soc + dirSign dir * (current_amps * duration_minutes / 60 / b.capacity_ah * 100) →
        b'.soc = 100 ∧ applied < duration_minutes) ∧
      (b.soc + dirSign dir * (current_amps * duration_minutes / 60 / b.capacity_ah * 100) < 0 →
        b'.soc = 0 ∧ applied < duration_minutes) := by
  have hnc : ¬(current_amps ≤ 0 ∨ duration_minutes ≤ 0) := by
    push_neg
    exact ⟨hc, hd⟩
  unfold apply_current
  rw [if_neg hnc, if_neg (not_le.mpr hcap)]
  set sdelta := dirSign dir * (current_amps * duration_minutes / 60 / b.capacity_ah * 100)
    with hsdelta
  by_cases h1 : 100 < b.soc + sdelta
  · rw [if_pos h1]
    have hpos : 0 < sdelta := by linarith
    refine ⟨_, _, rfl, by simp, by simp, ?_, ?_⟩
    · intro _
      refine ⟨by simp, ?_⟩
      rw [div_lt_iff₀ hpos, mul_comm duration_minutes sdelta]
      exact mul_lt_mul_of_pos_right (by linarith) hd
    · intro h2
      linarith
  · rw [if_neg h1]
    by_cases h2 : b.soc + sdelta < 0
    · rw [if_pos h2]
      have hneg : sdelta < 0 := by linarith
      refine ⟨_, _, rfl, by simp, by simp, ?_, ?_⟩
      · intro h1'
        exact absurd h1' h1
      · intro _
        refine ⟨by simp, ?_⟩
        rw [div_lt_iff_of_neg hneg, mul_comm duration_minutes sdelta]
        exact mul_lt_mul_of_pos_right (by linarith) hd
    · rw [if_neg h2]
      push_neg at h1 h2
      refine ⟨_, _, rfl, by simp [h2], by simp [h1], ?_, ?_⟩
      · intro h1'
        exact absurd h1' (not_lt.mpr h1)
      · intro h2'
        exact absurd h2' (not_lt.mpr h2)

/-- Witness for C1: at SOC 99.5 on a 50 Ah pack, one hour of 1 A charge
would overshoot to 101.5, so the result is clipped to the boundary with a
strictly shorter applied duration. -/
theorem apply_current_soc_bounds_witness :
    ∃ b' applied,
      apply_current nearFullBattery 1 60 .charge = .ok (b', applied) ∧
      0 ≤ b'.soc ∧ b'.soc ≤ 100 ∧
      (100 < nearFullBattery.soc +
          dirSign .charge * (1 * 60 / 60 / nearFullBattery.capacity_ah * 100) →
        b'.soc = 100 ∧ applied < 60) ∧
      (nearFullBattery.soc +
          dirSign .charge * (1 * 60 / 60 / nearFullBattery.capacity_ah * 100) < 0 →
        b'.soc = 0 ∧ applied < 60) :=
  apply_current_soc_bounds nearFullBattery 1 60 .charge
    (by decide) (by decide) (by decide) (by decide) (by decide)

/-- Modelled from the spec: `HourlyForecast` immutable input record
(spec section 3). -/
structure HourlyForecast where
  hour : Nat
  power_production_wh : ℚ
  power_consumption_wh : ℚ
  wind_speed : Option ℚ
deriving DecidableEq, Repr

/-- Modelled from the spec: `SimulationHourResult` immutable output record
(spec section 3). -/
structure SimulationHourResult where
  hour : Nat
  is_nighttime : Bool
  power_production : ℚ
  start_soc : ℚ
  end_soc : ℚ
  soc_change : ℚ
  applied_current : ℚ
deriving DecidableEq, Repr

/-- Modelled from the spec: totals of a `simulate_day` run
(spec section 4.4). -/
structure SimulationTotals where
  total_power_production : ℚ
  total_charge_power : ℚ
  total_discharge_power : ℚ
  initial_soc : ℚ
  final_soc : ℚ
deriving DecidableEq, Repr

/-- Modelled from the spec: nighttime classification of an hour relative
to the requested daytime window `[start_hour, end_hour)` (spec sections
4.3/4.4; the dashboard requests the window 6..18). -/
def is_nighttime_hour (hour start_hour end_hour : Nat) : Bool :=
  if hour < start_hour ∨ end_hour ≤ hour then true else false

/-- Modelled from the spec: one simulated hour of the Day Simulator (spec
section 4.4).  A nighttime hour discharges at the nominal base rate, a
daytime hour with positive forecast production charges at the rate chosen
by the Rate Adaptation Policy, any other hour is idle; each applied step
goes through `apply_current`, whose clipping bounds the SOC. -/
def simulate_hour (start_hour end_hour : Nat) (b : BatteryState)
    (f : HourlyForecast) : BatteryState × SimulationHourResult :=
  if is_nighttime_hour f.hour start_hour end_hour then
    let current := base_rate_discharge * b.capacity_ah
    let b' := (apply_current_run b current 60 .discharge).1
    (b', { hour := f.hour, is_nighttime := true,
           power_production := f.power_production_wh,
           start_soc := b.soc, end_soc := b'.soc,
           soc_change := b'.soc - b.soc, applied_current := current })
  else if 0 < f.power_production_wh then
    let current := (adjust_c_rate f.power_production_wh).1 * b.capacity_ah
    let b' := (apply_current_run b current 60 .charge).1
    (b', { hour := f.hour, is_nighttime := false,
           power_production := f.power_production_wh,
           start_soc := b.soc, end_soc := b'.soc,
           soc_change := b'.soc - b.soc, applied_current := current })
  else
    (b, { hour := f.hour, is_nighttime := false,
          power_production := f.power_production_wh,
          start_soc := b.soc, end_soc := b.soc,
          soc_change := 0, applied_current := 0 })

/-- Modelled from the spec: hour-by-hour replay of the Day Simulator
(spec section 4.4), threading the ephemeral battery state through
`simulate_hour`. -/
def simulate_hours (start_hour end_hour : Nat) :
    BatteryState → List HourlyForecast → BatteryState × List SimulationHourResult
  | b, [] => (b, [])
  | b, f :: rest =>
      let step := simulate_hour start_hour end_hour b f
      let tail := simulate_hours start_hour end_hour step.1 rest
      (tail.1, step.2 :: tail.2)

/-- Modelled from the spec: `simulate_day` of the Day Simulator (spec
section 4.4), producing the ordered hourly results and the run totals
from a given starting battery state and hourly forecast. -/
def simulate_day (start_hour end_hour : Nat) (b0 : BatteryState)
    (fs : List HourlyForecast) : List SimulationHourResult × SimulationTotals :=
  let run := simulate_hours start_hour end_hour b0 fs
  (run.2,
   { total_power_production := (run.2.map (fun r => r.power_production)).sum
     total_charge_power := (run.2.map (fun r => max r.soc_change 0)).sum
     total_discharge_power := (run.2.map (fun r => max (-r.soc_change) 0)).sum
     initial_soc := b0.soc
     final_soc := run.1.soc })

/-- Modelled from the spec: the simulation entry point as seen from the
live system (spec sections 3 and 5): every request runs against a clone
of the live battery state and never writes back, so the live state is
returned untouched alongside the simulation output. -/
def simulate_day_request (live : BatteryState) (start_hour end_hour : Nat)
    (fs : List HourlyForecast) :
    BatteryState × (List SimulationHourResult × SimulationTotals) :=
  (live, simulate_day start_hour end_hour live fs)

/-- C7: `simulate_day` is deterministic: two runs on identical forecasts
and identical starting battery states produce identical hour-by-hour
result sequences (including the SOC trace) and identical totals, and a
simulation request leaves the live battery state unchanged. -/
theorem simulate_day_deterministic (live b1 b2 : BatteryState)
    (start_hour end_hour : Nat) (fs1 fs2 : List HourlyForecast)
    (hb : b1 = b2) (hf : fs1 = fs2) :
    (simulate_day_request live start_hour end_hour fs1).1 = live ∧
    simulate_day start_hour end_hour b1 fs1 =
      simulate_day start_hour end_hour b2 fs2 := by
  subst hb
  subst hf
  exact ⟨rfl, rfl⟩

/-- A concrete two-hour forecast used by witness statements: a productive
daytime hour above `P_ref` and a nighttime hour. -/
def sampleForecasts : List HourlyForecast :=
  [{ hour := 10, power_production_wh := 30000, power_consumption_wh := 500,
     wind_speed := some 4 },
   { hour := 20, power_production_wh := 0, power_consumption_wh := 500,
     wind_speed := none }]

/-- Witness for C7: two runs over the sample forecast from the default
battery coincide, and the request leaves the live battery untouched. -/
theorem simulate_day_deterministic_witness :
    (simulate_day_request defaultBattery 6 18 sampleForecasts).1 = defaultBattery ∧
    simulate_day 6 18 defaultBattery sampleForecasts =
      simulate_day 6 18 defaultBattery sampleForecasts :=
  simulate_day_deterministic defaultBattery defaultBattery defaultBattery
    6 18 sampleForecasts sampleForecasts rfl rfl

/-- Modelled from the spec: ESS operation mode of a schedule entry
(spec section 3, `SchedulePlanEntry.ess_mode`). -/
inductive EssMode
  | CHARGING
  | DISCHARGING
  | IDLE
deriving DecidableEq, Repr

/-- Modelled from the spec: `SchedulePlanEntry` immutable output record
(spec section 3); `ess_power` is signed, positive = charging. -/
structure SchedulePlanEntry where
  hour : Nat
  power_production : ℚ
  power_consumption : ℚ
  ess_mode : EssMode
  ess_power : ℚ
deriving DecidableEq, Repr

/-- Modelled from the spec: summary of a daily schedule (spec sections 3
and 4.3; the contiguous period fields are omitted as no claim concerns
them). -/
structure ScheduleSummary where
  required_battery_capacity_wh : ℚ
  max_charging_capacity_wh : ℚ
  charge_discharge_balance : ℚ
  is_sufficient : Bool
deriving DecidableEq, Repr

/-- Modelled from the spec: configured self-consumption/idle threshold of
the Schedule Builder (spec section 4.3); production exactly at the
threshold is conservatively planned as IDLE. -/
def idle_threshold : ℚ := 0

/-- Modelled from the spec: one planning step of the Schedule Builder
(spec section 4.3).  Daytime hours charge when production strictly
exceeds the idle threshold; nighttime hours discharge the streetlight
load up to the remaining battery capacity, going IDLE for the shortfall.
Returns the plan entry and the remaining discharge capacity. -/
def plan_hour (streetlight_load : ℚ) (start_hour end_hour : Nat)
    (f : HourlyForecast) (remaining : ℚ) : SchedulePlanEntry × ℚ :=
  if is_nighttime_hour f.hour start_hour end_hour then
    let discharge := min streetlight_load remaining
    if 0 < discharge then
      ({ hour := f.hour, power_production := f.power_production_wh,
         power_consumption := streetlight_load,
         ess_mode := .DISCHARGING, ess_power := -discharge },
       remaining - discharge)
    else
      ({ hour := f.hour, power_production := f.power_production_wh,
         power_consumption := streetlight_load,
         ess_mode := .IDLE, ess_power := 0 }, remaining)
  else if idle_threshold < f.power_production_wh then
    ({ hour := f.hour, power_production := f.power_production_wh,
       power_consumption := f.power_consumption_wh,
       ess_mode := .CHARGING, ess_power := f.power_production_wh }, remaining)
  else
    ({ hour := f.hour, power_production := f.power_production_wh,
       power_consumption := f.power_consumption_wh,
       ess_mode := .IDLE, ess_power := 0 }, remaining)

/-- Modelled from the spec: the hourly fold of the Schedule Builder,
threading the remaining discharge capacity. -/
def plan_hours (streetlight_load : ℚ) (start_hour end_hour : Nat) :
    ℚ → List HourlyForecast → List SchedulePlanEntry × ℚ
  | remaining, [] => ([], remaining)
  | remaining, f :: rest =>
      let step := plan_hour streetlight_load start_hour end_hour f remaining
      let tail := plan_hours streetlight_load start_hour end_hour step.2 rest
      (step.1 :: tail.1, tail.2)

/-- Modelled from the spec: `build_schedule` of the Daily Schedule Builder
(spec section 4.3): a pure function from the hourly forecast, streetlight
load and battery capacity to the hourly plan and its summary; it takes no
battery state and mutates nothing. -/
def build_schedule (fs : List HourlyForecast) (streetlight_load : ℚ)
    (battery_capacity_wh : ℚ) (start_hour end_hour : Nat) :
    List SchedulePlanEntry × ScheduleSummary :=
  let plan := (plan_hours streetlight_load start_hour end_hour battery_capacity_wh fs).1
  let required :=
    ((fs.filter (fun f => is_nighttime_hour f.hour start_hour end_hour)).map
      (fun _ => streetlight_load)).sum
  let charging := (plan.map (fun e => max e.ess_power 0)).sum
  let discharging := (plan.map (fun e => max (-e.ess_power) 0)).sum
  (plan,
   { required_battery_capacity_wh := required
     max_charging_capacity_wh := charging
     charge_discharge_balance := charging - discharging
     is_sufficient := decide (required ≤ discharging) })

/-- Modelled from the spec: the schedule-building entry point as seen from
the live system (spec sections 4.3 and 5): it only plans, so the live
battery state is returned untouched alongside the plan. -/
def build_schedule_request (live : BatteryState) (fs : List HourlyForecast)
    (streetlight_load battery_capacity_wh : ℚ) (start_hour end_hour : Nat) :
    BatteryState × (List SchedulePlanEntry × ScheduleSummary) :=
  (live, build_schedule fs streetlight_load battery_capacity_wh start_hour end_hour)

/-- C8: `build_schedule` is pure: two calls on identical forecasts and
identical configuration return identical hourly plans and summaries, and
a schedule-building request leaves every battery state unchanged. -/
theorem build_schedule_pure (live : BatteryState)
    (fs1 fs2 : List HourlyForecast) (l1 l2 c1 c2 : ℚ) (s1 s2 e1 e2 : Nat)
    (hf : fs1 = fs2) (hl : l1 = l2) (hc : c1 = c2) (hs : s1 = s2)
    (he : e1 = e2) :
    (build_schedule_request live fs1 l1 c1 s1 e1).1 = live ∧
    build_schedule fs1 l1 c1 s1 e1 = build_schedule fs2 l2 c2 s2 e2 := by
  subst hf
  subst hl
  subst hc
  subst hs
  subst he
  exact ⟨rfl, rfl⟩

/-- Witness for C8: two builds over the sample forecast coincide and the
default battery is untouched by the request. -/
theorem build_schedule_pure_witness :
    (build_schedule_request defaultBattery sampleForecasts 400 4800 6 18).1 =
      defaultBattery ∧
    build_schedule sampleForecasts 400 4800 6 18 =
      build_schedule sampleForecasts 400 4800 6 18 :=
  build_schedule_pure defaultBattery sampleForecasts sampleForecasts
    400 400 4800 4800 6 6 18 18 rfl rfl rfl rfl rfl

/-- Realtime ESS status as consumed by the dashboard (the
`/ess/realtime/{location}` response); only the `power_production` field is
read by `startBatteryCharging` (src/unnamed/part_000).  JavaScript
truthiness of the numeric field is modelled as being nonzero. -/
structure RealtimeStatus where
  power_production : ℚ
deriving DecidableEq, Repr

/-- Request body of the dashboard's charge request, as posted to
`/ess/battery/charge` (src/unnamed/part_000, `startBatteryCharging`). -/
structure ChargeRequestBody where
  power_production : ℚ
  location : String
deriving DecidableEq, Repr

/-- Embedded from src/unnamed/part_000 (`startBatteryCharging`, both the
ESSDashboard and the EnhancedDashboard copy): the request body starts from
the fabricated default `power_production = 1000` and is overwritten with
`realtimeStatus.power_production` only when a realtime status is loaded
and that field is truthy. -/
def startBatteryChargingBody (realtimeStatus : Option RealtimeStatus)
    (selectedLocation : String) : ChargeRequestBody :=
  let powerProduction : ℚ :=
    match realtimeStatus with
    | some rs => if rs.power_production ≠ 0 then rs.power_production else 1000
    | none => 1000
  { power_production := powerProduction, location := selectedLocation }

/-- C9: the dashboard's charge request carries
`power_production = realtimeStatus.power_production` exactly when a
realtime status with a truthy (nonzero) `power_production` is loaded, and
the fabricated default 1000 otherwise, so the backend's `start_charge`
always receives a `power_production` value. -/
theorem startBatteryChargingBody_spec (o : Option RealtimeStatus)
    (rs : RealtimeStatus) (loc : String) :
    (o = some rs → rs.power_production ≠ 0 →
      startBatteryChargingBody o loc =
        { power_production := rs.power_production, location := loc }) ∧
    (o = none ∨ (o = some rs ∧ rs.power_production = 0) →
      startBatteryChargingBody o loc =
        { power_production := 1000, location := loc }) := by
  constructor
  · intro ho hp
    subst ho
    simp [startBatteryChargingBody, hp]
  · intro h
    rcases h with h | ⟨ho, hp⟩
    · subst h
      simp [startBatteryChargingBody]
    · subst ho
      simp [startBatteryChargingBody, hp]

/-- A concrete realtime status with a truthy production reading, used by
witness statements. -/
def sampleStatus : RealtimeStatus := { power_production := 500 }

/-- A location string used by witness statements. -/
def sampleLocation : String := "인경호_앞"

/-- Witness for C9: with a loaded truthy reading the request carries it;
with no realtime status the request carries the default 1000. -/
theorem startBatteryChargingBody_spec_witness :
    startBatteryChargingBody (some sampleStatus) sampleLocation =
      { power_production := sampleStatus.power_production,
        location := sampleLocation } ∧
    startBatteryChargingBody none sampleLocation =
      { power_production := 1000, location := sampleLocation } :=
  ⟨(startBatteryChargingBody_spec (some sampleStatus) sampleStatus
      sampleLocation).1 rfl (by decide),
   (startBatteryChargingBody_spec none sampleStatus sampleLocation).2
      (Or.inl rfl)⟩

/-- Request body of the dashboard's day-simulation request, as posted to
`/ess/simulate/day` (src/unnamed/part_000, `runEssSimulation`). -/
structure SimulateDayRequest where
  location : String
  date : String
  avg_wind_speed : ℚ
  start_hour : Nat
  end_hour : Nat
deriving DecidableEq, Repr

/-- Embedded from src/unnamed/part_000 (`runEssSimulation`, ESSDashboard
copy): the simulation request fixes `start_hour = 6` and `end_hour = 18`,
sets `date` to the current day, and takes only the location and wind
speed from user input. -/
def runEssSimulationBody (selectedLocation : String) (windSpeed : ℚ)
    (today : String) : SimulateDayRequest :=
  { location := selectedLocation, date := today, avg_wind_speed := windSpeed,
    start_hour := 6, end_hour := 18 }

/-- Embedded from src/unnamed/part_000 (`runEssSimulation`, EnhancedDashboard
copy, the only other frontend caller of `/ess/simulate/day`): identical to
the ESSDashboard copy. -/
def runEssSimulationBodyEnhanced (selectedLocation : String) (windSpeed : ℚ)
    (today : String) : SimulateDayRequest :=
  { location := selectedLocation, date := today, avg_wind_speed := windSpeed,
    start_hour := 6, end_hour := 18 }

/-- C10: every simulation request the frontend can build fixes
`start_hour = 6` and `end_hour = 18` and sets `date` to the current day,
with only location and wind speed varying with user input; both frontend
call sites of `/ess/simulate/day` build the same body. -/
theorem runEssSimulationBody_spec (loc today : String) (windSpeed : ℚ) :
    (runEssSimulationBody loc windSpeed today).start_hour = 6 ∧
    (runEssSimulationBody loc windSpeed today).end_hour = 18 ∧
    (runEssSimulationBody loc windSpeed today).date = today ∧
    (runEssSimulationBody loc windSpeed today).location = loc ∧
    (runEssSimulationBody loc windSpeed today).avg_wind_speed = windSpeed ∧
    runEssSimulationBodyEnhanced loc windSpeed today =
      runEssSimulationBody loc windSpeed today :=
  ⟨rfl, rfl, rfl, rfl, rfl, rfl⟩
